import Mathlib

/-
Shallow embedding of matchit-serde (src/lib.rs): a serde `Deserializer` over an
ordered, flat list of string key/value pairs captured by a router.  Each
`deserialize_*` trait method is embedded as a Lean function taking the visitor
callback it actually uses; the serde visitor ("receiver") is external, so it is
modelled as that callback argument.
-/

namespace MatchitSerde

/-- Error taxonomy, mirroring the `ParamsDeserializationError` enum of src/lib.rs.
The Rust `&'static str` payloads become `String`, `usize` becomes `Nat`. -/
inductive ParamsDeserializationError where
  | UnsupportedType (tyName : String)
  | Custom (msg : String)
  | WrongNumberOfParameters (got expected : Nat)
  | ParseError (value expected_type : String)
  | ParseErrorAtKey (key value expected_type : String)
  | ParseErrorAtIndex (index : Nat) (value expected_type : String)
deriving DecidableEq

/-- Embedding of the `de::Error::custom` impl for `ParamsDeserializationError`:
the receiver-facing error-construction hook, `Self::Custom(msg.to_string())`. -/
def ParamsDeserializationError.custom (msg : String) : ParamsDeserializationError :=
  .Custom msg

/-- Embedding of `Params<'de>`: an ordered, borrowed list of (key, value) string pairs. -/
abbrev Params := List (String × String)

/-- Embedding of `Params::len`. -/
def Params.len (p : Params) : Nat := p.length

/-- Embedding of `Params::iter_entries`: the ordered (key, value) pairs,
`self.0.iter().map(|&(k, v)| (k, v))`. -/
def Params.iter_entries (p : Params) : List (String × String) :=
  p.map (fun kv => (kv.1, kv.2))

/-- Embedding of `Params::values`: the ordered values with keys discarded,
`self.0.iter().map(|&(_k, v)| v)`. -/
def Params.values (p : Params) : List String :=
  p.map (fun kv => kv.2)

/-- Decimal value of a character, as in Rust's `from_str_radix` digit handling
(radix 10): a digit character maps to its value, anything else fails. -/
def digitVal (c : Char) : Option Nat :=
  if '0' ≤ c ∧ c ≤ '9' then some (c.toNat - '0'.toNat) else none

/-- Accumulator loop of Rust's decimal integer parsing over the digit characters. -/
def parseDigitsAux (acc : Nat) : List Char → Option Nat
  | [] => some acc
  | c :: rest =>
    match digitVal c with
    | none => none
    | some d => parseDigitsAux (acc * 10 + d) rest

/-- Magnitude of a decimal digit string, as in Rust integer `FromStr`:
fails on the empty string and on any non-digit character. -/
def parseDigits : List Char → Option Nat
  | [] => none
  | cs => parseDigitsAux 0 cs

/-- Embedding of Rust `FromStr` for an unsigned integer type with maximum `hi`:
an optional leading plus sign, then a nonempty run of decimal digits, rejecting
values above `hi` (Rust's checked arithmetic overflow). A minus sign is rejected. -/
def parseUnsigned (hi : Nat) (s : String) : Option Nat :=
  let cs :=
    match s.toList with
    | '+' :: rest => rest
    | cs => cs
  match parseDigits cs with
  | none => none
  | some n => if n ≤ hi then some n else none

/-- Embedding of Rust `FromStr` for a signed integer type with range `[lo, hi]`:
an optional sign, then a nonempty run of decimal digits, with range check. -/
def parseSigned (lo hi : Int) (s : String) : Option Int :=
  match s.toList with
  | '-' :: rest =>
    match parseDigits rest with
    | none => none
    | some n => if lo ≤ -(n : Int) then some (-(n : Int)) else none
  | '+' :: rest =>
    match parseDigits rest with
    | none => none
    | some n => if (n : Int) ≤ hi then some (n : Int) else none
  | cs =>
    match parseDigits cs with
    | none => none
    | some n => if (n : Int) ≤ hi then some (n : Int) else none

/-- Embedding of Rust `bool::from_str`: exactly the strings "true" and "false". -/
def parseBool (s : String) : Option Bool :=
  if s = "true" then some true else if s = "false" then some false else none

/-- Embedding of Rust `char::from_str`: succeeds iff the string is a single character. -/
def parseChar (s : String) : Option Char :=
  match s.toList with
  | [c] => some c
  | _ => none

/-- Embedding of Rust `String::from_str`, which is infallible. -/
def parseString (s : String) : Option String := some s

/-- Embedding of the `parse_single_value!` macro body of src/lib.rs: if the
param list length is not 1, fail with `WrongNumberOfParameters`; otherwise parse
the sole value with the kind's textual parser `prs`, failing with `ParseError`
carrying the raw text and the kind's type name, and on success invoke the
receiver callback `visit` with the parsed value. -/
def parseSingleValue {α β : Type} (prs : String → Option β) (tyName : String)
    (visit : β → Except ParamsDeserializationError α) (p : Params) :
    Except ParamsDeserializationError α :=
  match p with
  | [(_k, value)] =>
    match prs value with
    | none => .error (.ParseError value tyName)
    | some v => visit v
  | _ => .error (.WrongNumberOfParameters (Params.len p) 1)

/-- Embedding of `ParamsDeserializationError::unsupported_type::<T>()`; the Rust
`type_name::<T>()` of the visitor's value type is modelled as the `tyName` argument. -/
def unsupported_type {α : Type} (tyName : String) : Except ParamsDeserializationError α :=
  .error (.UnsupportedType tyName)

/-- Embedding of `deserialize_bool` (instance of `parse_single_value!`). -/
def deserialize_bool {α : Type} (p : Params)
    (visit : Bool → Except ParamsDeserializationError α) :
    Except ParamsDeserializationError α :=
  parseSingleValue parseBool "bool" visit p

/-- Embedding of `deserialize_i8`. -/
def deserialize_i8 {α : Type} (p : Params)
    (visit : Int → Except ParamsDeserializationError α) :
    Except ParamsDeserializationError α :=
  parseSingleValue (parseSigned (-(2 ^ 7)) (2 ^ 7 - 1)) "i8" visit p

/-- Embedding of `deserialize_i16`. -/
def deserialize_i16 {α : Type} (p : Params)
    (visit : Int → Except ParamsDeserializationError α) :
    Except ParamsDeserializationError α :=
  parseSingleValue (parseSigned (-(2 ^ 15)) (2 ^ 15 - 1)) "i16" visit p

/-- Embedding of `deserialize_i32`. -/
def deserialize_i32 {α : Type} (p : Params)
    (visit : Int → Except ParamsDeserializationError α) :
    Except ParamsDeserializationError α :=
  parseSingleValue (parseSigned (-(2 ^ 31)) (2 ^ 31 - 1)) "i32" visit p

/-- Embedding of `deserialize_i64`. -/
def deserialize_i64 {α : Type} (p : Params)
    (visit : Int → Except ParamsDeserializationError α) :
    Except ParamsDeserializationError α :=
  parseSingleValue (parseSigned (-(2 ^ 63)) (2 ^ 63 - 1)) "i64" visit p

/-- Embedding of `deserialize_i128`. -/
def deserialize_i128 {α : Type} (p : Params)
    (visit : Int → Except ParamsDeserializationError α) :
    Except ParamsDeserializationError α :=
  parseSingleValue (parseSigned (-(2 ^ 127)) (2 ^ 127 - 1)) "i128" visit p

/-- Embedding of `deserialize_u8`. -/
def deserialize_u8 {α : Type} (p : Params)
    (visit : Nat → Except ParamsDeserializationError α) :
    Except ParamsDeserializationError α :=
  parseSingleValue (parseUnsigned (2 ^ 8 - 1)) "u8" visit p

/-- Embedding of `deserialize_u16`. -/
def deserialize_u16 {α : Type} (p : Params)
    (visit : Nat → Except ParamsDeserializationError α) :
    Except ParamsDeserializationError α :=
  parseSingleValue (parseUnsigned (2 ^ 16 - 1)) "u16" visit p

/-- Embedding of `deserialize_u32`. -/
def deserialize_u32 {α : Type} (p : Params)
    (visit : Nat → Except ParamsDeserializationError α) :
    Except ParamsDeserializationError α :=
  parseSingleValue (parseUnsigned (2 ^ 32 - 1)) "u32" visit p

/-- Embedding of `deserialize_u64`. -/
def deserialize_u64 {α : Type} (p : Params)
    (visit : Nat → Except ParamsDeserializationError α) :
    Except ParamsDeserializationError α :=
  parseSingleValue (parseUnsigned (2 ^ 64 - 1)) "u64" visit p

/-- Embedding of `deserialize_u128`. -/
def deserialize_u128 {α : Type} (p : Params)
    (visit : Nat → Except ParamsDeserializationError α) :
    Except ParamsDeserializationError α :=
  parseSingleValue (parseUnsigned (2 ^ 128 - 1)) "u128" visit p

/-- Embedding of `deserialize_f32` (instance of `parse_single_value!` with the
IEEE-754 textual parser of `f32::from_str`, which lies outside the shallow
embedding and is therefore a parameter). -/
def deserialize_f32 {α β : Type} (parseF32 : String → Option β) (p : Params)
    (visit : β → Except ParamsDeserializationError α) :
    Except ParamsDeserializationError α :=
  parseSingleValue parseF32 "f32" visit p

/-- Embedding of `deserialize_f64` (see `deserialize_f32`). -/
def deserialize_f64 {α β : Type} (parseF64 : String → Option β) (p : Params)
    (visit : β → Except ParamsDeserializationError α) :
    Except ParamsDeserializationError α :=
  parseSingleValue parseF64 "f64" visit p

/-- Embedding of `deserialize_string` (instance of `parse_single_value!` with
the infallible `String` parser, `visit_string`, type name "String"). -/
def deserialize_string {α : Type} (p : Params)
    (visit : String → Except ParamsDeserializationError α) :
    Except ParamsDeserializationError α :=
  parseSingleValue parseString "String" visit p

/-- Embedding of `deserialize_byte_buf`: the source instantiates
`parse_single_value!` with `visit_string` and type name "String", exactly as
`deserialize_string` does. -/
def deserialize_byte_buf {α : Type} (p : Params)
    (visit : String → Except ParamsDeserializationError α) :
    Except ParamsDeserializationError α :=
  parseSingleValue parseString "String" visit p

/-- Embedding of `deserialize_char`. -/
def deserialize_char {α : Type} (p : Params)
    (visit : Char → Except ParamsDeserializationError α) :
    Except ParamsDeserializationError α :=
  parseSingleValue parseChar "char" visit p

/-- Embedding of `deserialize_bytes` (an `unsupported_type!` instance): fails
with `UnsupportedType` for every param list, never touching the visitor. -/
def deserialize_bytes {α V : Type} (tyName : String) (_p : Params) (_visitor : V) :
    Except ParamsDeserializationError α :=
  unsupported_type tyName

/-- Embedding of `deserialize_option` (an `unsupported_type!` instance). -/
def deserialize_option {α V : Type} (tyName : String) (_p : Params) (_visitor : V) :
    Except ParamsDeserializationError α :=
  unsupported_type tyName

/-- Embedding of `deserialize_identifier` (an `unsupported_type!` instance). -/
def deserialize_identifier {α V : Type} (tyName : String) (_p : Params) (_visitor : V) :
    Except ParamsDeserializationError α :=
  unsupported_type tyName

/-- Embedding of `deserialize_ignored_any` (an `unsupported_type!` instance). -/
def deserialize_ignored_any {α V : Type} (tyName : String) (_p : Params) (_visitor : V) :
    Except ParamsDeserializationError α :=
  unsupported_type tyName

/-- Embedding of `deserialize_str` (an `unsupported_type!` instance). -/
def deserialize_str {α V : Type} (tyName : String) (_p : Params) (_visitor : V) :
    Except ParamsDeserializationError α :=
  unsupported_type tyName

/-- Embedding of `deserialize_any` (an `unsupported_type!` instance). -/
def deserialize_any {α V : Type} (tyName : String) (_p : Params) (_visitor : V) :
    Except ParamsDeserializationError α :=
  unsupported_type tyName

/-- Embedding of `deserialize_unit`: invoke the receiver's `visit_unit`
unconditionally; the callback result is modelled as the `visit_unit` argument. -/
def deserialize_unit {α : Type} (_p : Params)
    (visit_unit : Except ParamsDeserializationError α) :
    Except ParamsDeserializationError α :=
  visit_unit

/-- Embedding of `deserialize_unit_struct`: the name is ignored and the
receiver's `visit_unit` is invoked unconditionally. -/
def deserialize_unit_struct {α : Type} (_name : String) (_p : Params)
    (visit_unit : Except ParamsDeserializationError α) :
    Except ParamsDeserializationError α :=
  visit_unit

/-- Embedding of `deserialize_newtype_struct`: `visitor.visit_newtype_struct(self)`
hands the visitor the very same deserializer, i.e. the same param list, so the
callback is modelled as a function of the param list. -/
def deserialize_newtype_struct {α : Type} (_name : String) (p : Params)
    (visit_newtype : Params → Except ParamsDeserializationError α) :
    Except ParamsDeserializationError α :=
  visit_newtype p

/-- Embedding of `deserialize_seq`: `visitor.visit_seq(SeqDeserializer::new(self.0.values()))`
exposes the ordered value sequence to the receiver. -/
def deserialize_seq {α : Type} (p : Params)
    (visit_seq : List String → Except ParamsDeserializationError α) :
    Except ParamsDeserializationError α :=
  visit_seq (Params.values p)

/-- Embedding of `deserialize_tuple`: fail with `WrongNumberOfParameters` when
the list length differs from the arity, else expose the ordered values. -/
def deserialize_tuple {α : Type} (len : Nat) (p : Params)
    (visit_seq : List String → Except ParamsDeserializationError α) :
    Except ParamsDeserializationError α :=
  if Params.len p ≠ len then
    .error (.WrongNumberOfParameters (Params.len p) len)
  else
    visit_seq (Params.values p)

/-- Embedding of `deserialize_tuple_struct`: same body as `deserialize_tuple`
(the source duplicates the check), with the name ignored. -/
def deserialize_tuple_struct {α : Type} (_name : String) (len : Nat) (p : Params)
    (visit_seq : List String → Except ParamsDeserializationError α) :
    Except ParamsDeserializationError α :=
  if Params.len p ≠ len then
    .error (.WrongNumberOfParameters (Params.len p) len)
  else
    visit_seq (Params.values p)

/-- Embedding of `deserialize_map`: `visitor.visit_map(MapDeserializer::new(self.0.iter_entries()))`
exposes the ordered (key, value) pairs to the receiver. -/
def deserialize_map {α : Type} (p : Params)
    (visit_map : List (String × String) → Except ParamsDeserializationError α) :
    Except ParamsDeserializationError α :=
  visit_map (Params.iter_entries p)

/-- Embedding of `deserialize_struct`: delegates to `self.deserialize_map(visitor)`,
ignoring the declared name and field list. -/
def deserialize_struct {α : Type} (_name : String) (_fields : List String) (p : Params)
    (visit_map : List (String × String) → Except ParamsDeserializationError α) :
    Except ParamsDeserializationError α :=
  deserialize_map p visit_map

/-- Embedding of `deserialize_enum`: unconditionally
`Err(ParamsDeserializationError::unsupported_type::<V::Value>())`, ignoring the
name, the variant list, the visitor and the params. -/
def deserialize_enum {α V : Type} (tyName : String) (_name : String)
    (_variants : List String) (_p : Params) (_visitor : V) :
    Except ParamsDeserializationError α :=
  unsupported_type tyName

/-- The target type of the test in src/lib.rs: `struct Path { principal: String, path: String }`. -/
structure Path where
  principal : String
  path : String
deriving DecidableEq

/-- Receiver for the test's `Path` struct, modelling the serde-derived visitor
(external to the engine): consume the exposed (key, value) pairs in order,
binding the fields `principal` and `path` by key name. -/
def pathVisitMapAux (pr pa : Option String) :
    List (String × String) → Except ParamsDeserializationError Path
  | [] =>
    match pr, pa with
    | some principal, some path => .ok ⟨principal, path⟩
    | none, _ => .error (.custom "missing field principal")
    | _, none => .error (.custom "missing field path")
  | (k, v) :: rest =>
    if k = "principal" then pathVisitMapAux (some v) pa rest
    else if k = "path" then pathVisitMapAux pr (some v) rest
    else pathVisitMapAux pr pa rest

/-- Entry point of the `Path` receiver: both fields start unset. -/
def pathVisitMap (entries : List (String × String)) :
    Except ParamsDeserializationError Path :=
  pathVisitMapAux none none entries

/-- Receiver for a 2-tuple of text, modelling the serde-derived visitor for
`(String, String)` (external to the engine): pull the first two exposed values. -/
def tuple2VisitSeq : List String → Except ParamsDeserializationError (String × String)
  | a :: b :: _ => .ok (a, b)
  | _ => .error (.custom "invalid length")

/-- Iterated pass-through wrappers: `nestedNewtype k inner` requests `k` layers
of `deserialize_newtype_struct` around the innermost shape request `inner`. -/
def nestedNewtype {α : Type} :
    Nat → (Params → Except ParamsDeserializationError α) → Params →
    Except ParamsDeserializationError α
  | 0, inner, p => inner p
  | k + 1, inner, p => deserialize_newtype_struct "Wrapper" p (nestedNewtype k inner)

/-- Helper: the arity branch of `parse_single_value!` fires whenever the param
list length differs from 1, regardless of the parser and the visitor. -/
theorem parseSingleValue_len_ne_one {α β : Type} (prs : String → Option β)
    (tyName : String) (visit : β → Except ParamsDeserializationError α)
    (p : Params) (h : Params.len p ≠ 1) :
    parseSingleValue prs tyName visit p
      = .error (.WrongNumberOfParameters (Params.len p) 1) := by
  match p with
  | [] => rfl
  | [(k, v)] => exact absurd rfl h
  | (a, b) :: (c, d) :: rest => rfl

/-- Helper: on a singleton param list whose value the parser rejects,
`parse_single_value!` fails with `ParseError` carrying the raw text and the
kind's type name. -/
theorem parseSingleValue_parse_failure {α β : Type} (prs : String → Option β)
    (tyName : String) (visit : β → Except ParamsDeserializationError α)
    (k v : String) (h : prs v = none) :
    parseSingleValue prs tyName visit [(k, v)] = .error (.ParseError v tyName) := by
  simp [parseSingleValue, h]

/-- Helper: on a singleton param list whose value the parser accepts,
`parse_single_value!` invokes the receiver callback with the parsed value. -/
theorem parseSingleValue_parse_success {α β : Type} (prs : String → Option β)
    (tyName : String) (visit : β → Except ParamsDeserializationError α)
    (k v : String) (b : β) (h : prs v = some b) :
    parseSingleValue prs tyName visit [(k, v)] = visit b := by
  simp [parseSingleValue, h]

/-- Helper: any number of pass-through wrapper layers resolves to the innermost
shape request against the identical param list. -/
theorem nestedNewtype_eq {α : Type} (k : Nat)
    (inner : Params → Except ParamsDeserializationError α) (p : Params) :
    nestedNewtype k inner p = inner p := by
  induction k with
  | zero => rfl
  | succ n ih => exact ih

/-- Claim C1: for the param list [("principal","user"), ("path","interesting")],
decoding into the named-field struct `Path` with text fields `principal` and
`path` succeeds with the expected field values, and decoding the same list as a
2-tuple of text succeeds with ("user", "interesting"). -/
theorem claim_C1_struct_and_tuple_decode :
    deserialize_struct "Path" ["principal", "path"]
        [("principal", "user"), ("path", "interesting")] pathVisitMap
      = .ok ⟨"user", "interesting"⟩ ∧
    deserialize_tuple 2 [("principal", "user"), ("path", "interesting")] tuple2VisitSeq
      = .ok ("user", "interesting") := by
  constructor <;> rfl

/-- Claim C6: decoding a unit or unit-marker shape invokes the receiver's unit
callback unconditionally for every param list (empty or not) and every declared
name: the result is exactly the callback's, so the engine never produces an
error of its own and never inspects the parameters. -/
theorem claim_C6_unit_unconditional :
    ∀ (α : Type) (p : Params) (name : String)
      (visit_unit : Except ParamsDeserializationError α),
      deserialize_unit p visit_unit = visit_unit ∧
      deserialize_unit_struct name p visit_unit = visit_unit := by
  intro α p name visit_unit
  exact ⟨rfl, rfl⟩

/-- Claim C7: for every param list and every receiver, decoding a named-field
struct behaves identically to decoding a map over the same list; the declared
struct name and field list have no effect. -/
theorem claim_C7_struct_is_map :
    ∀ (α : Type) (name : String) (fields : List String) (p : Params)
      (visit_map : List (String × String) → Except ParamsDeserializationError α),
      deserialize_struct name fields p visit_map = deserialize_map p visit_map := by
  intro α name fields p visit_map
  rfl

/-- Claim C2: for every fixed-arity shape request (a bare scalar via the
`parse_single_value!` body, required arity 1, for any primitive kind's parser;
or a fixed-arity tuple / named tuple of arity N), a param list whose length
differs from the required arity fails with `WrongNumberOfParameters` whose got
field is the actual length and whose expected field is the arity, for every
length including 0; the result does not depend on the parser or the receiver
callback, so the check happens before any value is parsed or exposed. -/
theorem claim_C2_arity_mismatch :
    (∀ (α β : Type) (prs : String → Option β) (tyName : String)
       (visit : β → Except ParamsDeserializationError α) (p : Params),
       Params.len p ≠ 1 →
       parseSingleValue prs tyName visit p
         = .error (.WrongNumberOfParameters (Params.len p) 1)) ∧
    (∀ (α : Type) (len : Nat) (p : Params)
       (visit_seq : List String → Except ParamsDeserializationError α),
       Params.len p ≠ len →
       deserialize_tuple len p visit_seq
         = .error (.WrongNumberOfParameters (Params.len p) len)) ∧
    (∀ (α : Type) (name : String) (len : Nat) (p : Params)
       (visit_seq : List String → Except ParamsDeserializationError α),
       Params.len p ≠ len →
       deserialize_tuple_struct name len p visit_seq
         = .error (.WrongNumberOfParameters (Params.len p) len)) := by
  refine ⟨?_, ?_, ?_⟩
  · intro α β prs tyName visit p h
    exact parseSingleValue_len_ne_one prs tyName visit p h
  · intro α len p visit_seq h
    simp [deserialize_tuple, h]
  · intro α name len p visit_seq h
    simp [deserialize_tuple_struct, h]

/-- Witness for claim C2: the empty list against the bool scalar yields
got 0 expected 1, and length-1 lists against arity-2 tuples and arity-0 named
tuples yield the corresponding arity errors. -/
theorem claim_C2_arity_mismatch_witness :
    parseSingleValue parseBool "bool" (fun b => .ok b) ([] : Params)
      = .error (.WrongNumberOfParameters 0 1) ∧
    deserialize_tuple 2 [("a", "x")] (fun l => .ok l)
      = .error (.WrongNumberOfParameters 1 2) ∧
    deserialize_tuple_struct "T" 0 [("a", "x")] (fun l => .ok l)
      = .error (.WrongNumberOfParameters 1 0) :=
  ⟨claim_C2_arity_mismatch.1 Bool Bool parseBool "bool" (fun b => .ok b) [] (by decide),
   claim_C2_arity_mismatch.2.1 (List String) 2 [("a", "x")] (fun l => .ok l) (by decide),
   claim_C2_arity_mismatch.2.2 (List String) "T" 0 [("a", "x")] (fun l => .ok l) (by decide)⟩

/-- Claim C3: for every singleton param list whose sole value the requested
primitive kind's parser rejects, the scalar path fails with `ParseError`
carrying exactly the raw value text and the kind's type name, regardless of the
receiver callback (so the callback is not invoked). -/
theorem claim_C3_scalar_parse_error :
    ∀ (α β : Type) (prs : String → Option β) (tyName : String)
      (visit : β → Except ParamsDeserializationError α) (k v : String),
      prs v = none →
      parseSingleValue prs tyName visit [(k, v)]
        = .error (.ParseError v tyName) := by
  intro α β prs tyName visit k v h
  exact parseSingleValue_parse_failure prs tyName visit k v h

/-- Witness for claim C3: the params [("n","abc")] requested as an i64 scalar
fail with `ParseError` value "abc", expected type "i64". -/
theorem claim_C3_scalar_parse_error_witness :
    parseSigned (-(2 ^ 63)) (2 ^ 63 - 1) "abc" = none ∧
    deserialize_i64 [("n", "abc")] (fun n => .ok n)
      = .error (.ParseError "abc" "i64") :=
  ⟨by decide,
   claim_C3_scalar_parse_error Int Int (parseSigned (-(2 ^ 63)) (2 ^ 63 - 1)) "i64"
     (fun n => .ok n) "n" "abc" (by decide)⟩

/-- Claim C4: sequence, tuple and map exposure present the values (respectively
the key/value pairs) in exactly the original param list order with no
reordering, and for any two param lists with identical value sequences but
different key names, sequence and tuple decoding with the same receiver produce
identical results. -/
theorem claim_C4_order_preserved :
    (∀ (p : Params), Params.values p = p.map Prod.snd) ∧
    (∀ (p : Params), Params.iter_entries p = p) ∧
    (∀ (α : Type) (p q : Params)
       (visit_seq : List String → Except ParamsDeserializationError α),
       Params.values p = Params.values q →
       deserialize_seq p visit_seq = deserialize_seq q visit_seq) ∧
    (∀ (α : Type) (n : Nat) (p q : Params)
       (visit_seq : List String → Except ParamsDeserializationError α),
       Params.values p = Params.values q →
       deserialize_tuple n p visit_seq = deserialize_tuple n q visit_seq) := by
  refine ⟨?_, ?_, ?_, ?_⟩
  · intro p
    rfl
  · intro p
    simp [Params.iter_entries]
  · intro α p q visit_seq h
    simp [deserialize_seq, h]
  · intro α n p q visit_seq h
    have hlen : Params.len p = Params.len q := by
      have hl := congrArg List.length h
      simpa [Params.values, Params.len] using hl
    simp [deserialize_tuple, hlen, h]

/-- Witness for claim C4: the lists [("a","x"),("b","y")] and
[("b","x"),("a","y")] share the value sequence ["x","y"] under swapped key
names, and sequence and 2-tuple decoding return the same results on both. -/
theorem claim_C4_order_preserved_witness :
    Params.values [("a", "x"), ("b", "y")] = Params.values [("b", "x"), ("a", "y")] ∧
    deserialize_seq [("a", "x"), ("b", "y")] (fun l => .ok l)
      = deserialize_seq [("b", "x"), ("a", "y")] (fun l => .ok l) ∧
    deserialize_tuple 2 [("a", "x"), ("b", "y")] (fun l => .ok l)
      = deserialize_tuple 2 [("b", "x"), ("a", "y")] (fun l => .ok l) :=
  ⟨by decide,
   claim_C4_order_preserved.2.2.1 (List String) [("a", "x"), ("b", "y")]
     [("b", "x"), ("a", "y")] (fun l => .ok l) (by decide),
   claim_C4_order_preserved.2.2.2 (List String) 2 [("a", "x"), ("b", "y")]
     [("b", "x"), ("a", "y")] (fun l => .ok l) (by decide)⟩

/-- Claim C5: requesting a variant/enum shape, an optional shape, a
self-describing shape, an identifier, an ignored value, borrowed text or a byte
slice always fails with `UnsupportedType` naming the requested type, for every
param list (including the empty one) and every visitor, so the receiver's
callbacks are never invoked for these shapes. -/
theorem claim_C5_unsupported_shapes :
    ∀ (α V : Type) (tyName name : String) (variants : List String)
      (p : Params) (visitor : V),
      deserialize_bytes tyName p visitor
        = (.error (.UnsupportedType tyName) : Except ParamsDeserializationError α) ∧
      deserialize_option tyName p visitor
        = (.error (.UnsupportedType tyName) : Except ParamsDeserializationError α) ∧
      deserialize_identifier tyName p visitor
        = (.error (.UnsupportedType tyName) : Except ParamsDeserializationError α) ∧
      deserialize_ignored_any tyName p visitor
        = (.error (.UnsupportedType tyName) : Except ParamsDeserializationError α) ∧
      deserialize_str tyName p visitor
        = (.error (.UnsupportedType tyName) : Except ParamsDeserializationError α) ∧
      deserialize_any tyName p visitor
        = (.error (.UnsupportedType tyName) : Except ParamsDeserializationError α) ∧
      deserialize_enum tyName name variants p visitor
        = (.error (.UnsupportedType tyName) : Except ParamsDeserializationError α) := by
  intro α V tyName name variants p visitor
  exact ⟨rfl, rfl, rfl, rfl, rfl, rfl, rfl⟩

/-- Claim C8: a pass-through wrapper re-invokes shape resolution on the
identical param list, so the result equals decoding the inner shape directly;
any number of nested wrapper layers collapses the same way, and an arity check
reached through nested wrappers still compares against the full original list
length. -/
theorem claim_C8_newtype_passthrough :
    (∀ (α : Type) (name : String) (p : Params)
       (visit_newtype : Params → Except ParamsDeserializationError α),
       deserialize_newtype_struct name p visit_newtype = visit_newtype p) ∧
    (∀ (α : Type) (k : Nat) (inner : Params → Except ParamsDeserializationError α)
       (p : Params),
       nestedNewtype k inner p = inner p) ∧
    (∀ (α : Type) (k n : Nat) (p : Params)
       (visit_seq : List String → Except ParamsDeserializationError α),
       Params.len p ≠ n →
       nestedNewtype k (fun q => deserialize_tuple n q visit_seq) p
         = .error (.WrongNumberOfParameters (Params.len p) n)) := by
  refine ⟨?_, ?_, ?_⟩
  · intro α name p visit_newtype
    rfl
  · intro α k inner p
    exact nestedNewtype_eq k inner p
  · intro α k n p visit_seq h
    rw [nestedNewtype_eq]
    simp [deserialize_tuple, h]

/-- Witness for claim C8: two wrapper layers around an arity-1 tuple request,
applied to a length-2 list, still report got 2 expected 1 against the full
original list length. -/
theorem claim_C8_newtype_passthrough_witness :
    Params.len ([("a", "1"), ("b", "2")] : Params) ≠ 1 ∧
    nestedNewtype 2 (fun q => deserialize_tuple 1 q (fun l => .ok l))
        [("a", "1"), ("b", "2")]
      = .error (.WrongNumberOfParameters 2 1) :=
  ⟨by decide,
   claim_C8_newtype_passthrough.2.2 (List String) 2 1 [("a", "1"), ("b", "2")]
     (fun l => .ok l) (by decide)⟩

/-- Claim C9: decoding a byte-buffer shape behaves identically to decoding a
single text value: the entry point is literally the same instantiation of the
scalar path as the text scalar, it requires length exactly 1 (failing with
`WrongNumberOfParameters` got actual, expected 1 otherwise), and on a singleton
list it delivers the sole value to the receiver's string callback with no
binary decoding. -/
theorem claim_C9_byte_buf_as_string :
    (∀ (α : Type) (p : Params)
       (visit : String → Except ParamsDeserializationError α),
       deserialize_byte_buf p visit = deserialize_string p visit) ∧
    (∀ (α : Type) (k v : String)
       (visit : String → Except ParamsDeserializationError α),
       deserialize_byte_buf [(k, v)] visit = visit v) ∧
    (∀ (α : Type) (p : Params)
       (visit : String → Except ParamsDeserializationError α),
       Params.len p ≠ 1 →
       deserialize_byte_buf p visit
         = .error (.WrongNumberOfParameters (Params.len p) 1)) := by
  refine ⟨?_, ?_, ?_⟩
  · intro α p visit
    rfl
  · intro α k v visit
    exact parseSingleValue_parse_success parseString "String" visit k v v rfl
  · intro α p visit h
    exact parseSingleValue_len_ne_one parseString "String" visit p h

/-- Witness for claim C9: a singleton list delivers its value to the string
callback, and the empty list yields got 0 expected 1. -/
theorem claim_C9_byte_buf_as_string_witness :
    deserialize_byte_buf [("k", "payload")] (fun s => .ok s) = .ok "payload" ∧
    deserialize_byte_buf ([] : Params) (fun s => .ok s)
      = .error (.WrongNumberOfParameters 0 1) :=
  ⟨claim_C9_byte_buf_as_string.2.1 String "k" "payload" (fun s => .ok s),
   claim_C9_byte_buf_as_string.2.2 String [] (fun s => .ok s) (by decide)⟩

/-- Claim C10: the engine never constructs `Custom`, `ParseErrorAtKey` or
`ParseErrorAtIndex` itself: `Custom` arises only through the receiver-facing
`custom` hook, and every entry point either propagates a receiver callback's
result unchanged or fails with `UnsupportedType`, `WrongNumberOfParameters` or
`ParseError`. -/
theorem claim_C10_engine_error_kinds :
    (∀ (msg : String), ParamsDeserializationError.custom msg = .Custom msg) ∧
    (∀ (α β : Type) (prs : String → Option β) (tyName : String)
       (visit : β → Except ParamsDeserializationError α) (p : Params),
       (∃ b, parseSingleValue prs tyName visit p = visit b) ∨
       parseSingleValue prs tyName visit p
         = .error (.WrongNumberOfParameters (Params.len p) 1) ∨
       (∃ v, parseSingleValue prs tyName visit p = .error (.ParseError v tyName))) ∧
    (∀ (α : Type) (p : Params)
       (visit_seq : List String → Except ParamsDeserializationError α),
       deserialize_seq p visit_seq = visit_seq (Params.values p)) ∧
    (∀ (α : Type) (len : Nat) (p : Params)
       (visit_seq : List String → Except ParamsDeserializationError α),
       deserialize_tuple len p visit_seq = visit_seq (Params.values p) ∨
       deserialize_tuple len p visit_seq
         = .error (.WrongNumberOfParameters (Params.len p) len)) ∧
    (∀ (α : Type) (name : String) (len : Nat) (p : Params)
       (visit_seq : List String → Except ParamsDeserializationError α),
       deserialize_tuple_struct name len p visit_seq = visit_seq (Params.values p) ∨
       deserialize_tuple_struct name len p visit_seq
         = .error (.WrongNumberOfParameters (Params.len p) len)) ∧
    (∀ (α : Type) (p : Params)
       (visit_map : List (String × String) → Except ParamsDeserializationError α),
       deserialize_map p visit_map = visit_map (Params.iter_entries p)) ∧
    (∀ (α : Type) (name : String) (fields : List String) (p : Params)
       (visit_map : List (String × String) → Except ParamsDeserializationError α),
       deserialize_struct name fields p visit_map = visit_map (Params.iter_entries p)) ∧
    (∀ (α : Type) (name : String) (p : Params)
       (visit_unit : Except ParamsDeserializationError α),
       deserialize_unit p visit_unit = visit_unit ∧
       deserialize_unit_struct name p visit_unit = visit_unit) ∧
    (∀ (α : Type) (name : String) (p : Params)
       (visit_newtype : Params → Except ParamsDeserializationError α),
       deserialize_newtype_struct name p visit_newtype = visit_newtype p) ∧
    (∀ (α V : Type) (tyName name : String) (variants : List String)
       (p : Params) (visitor : V),
       deserialize_bytes tyName p visitor
         = (.error (.UnsupportedType tyName) : Except ParamsDeserializationError α) ∧
       deserialize_option tyName p visitor
         = (.error (.UnsupportedType tyName) : Except ParamsDeserializationError α) ∧
       deserialize_identifier tyName p visitor
         = (.error (.UnsupportedType tyName) : Except ParamsDeserializationError α) ∧
       deserialize_ignored_any tyName p visitor
         = (.error (.UnsupportedType tyName) : Except ParamsDeserializationError α) ∧
       deserialize_str tyName p visitor
         = (.error (.UnsupportedType tyName) : Except ParamsDeserializationError α) ∧
       deserialize_any tyName p visitor
         = (.error (.UnsupportedType tyName) : Except ParamsDeserializationError α) ∧
       deserialize_enum tyName name variants p visitor
         = (.error (.UnsupportedType tyName) : Except ParamsDeserializationError α)) := by
  refine ⟨?_, ?_, ?_, ?_, ?_, ?_, ?_, ?_, ?_, ?_⟩
  · intro msg
    rfl
  · intro α β prs tyName visit p
    match p with
    | [] => exact Or.inr (Or.inl rfl)
    | [(k, v)] =>
      cases h : prs v with
      | none =>
        exact Or.inr (Or.inr ⟨v, parseSingleValue_parse_failure prs tyName visit k v h⟩)
      | some b =>
        exact Or.inl ⟨b, parseSingleValue_parse_success prs tyName visit k v b h⟩
    | (a, b) :: (c, d) :: rest => exact Or.inr (Or.inl rfl)
  · intro α p visit_seq
    rfl
  · intro α len p visit_seq
    by_cases h : Params.len p = len
    · exact Or.inl (by simp [deserialize_tuple, h])
    · exact Or.inr (by simp [deserialize_tuple, h])
  · intro α name len p visit_seq
    by_cases h : Params.len p = len
    · exact Or.inl (by simp [deserialize_tuple_struct, h])
    · exact Or.inr (by simp [deserialize_tuple_struct, h])
  · intro α p visit_map
    rfl
  · intro α name fields p visit_map
    rfl
  · intro α name p visit_unit
    exact ⟨rfl, rfl⟩
  · intro α name p visit_newtype
    rfl
  · intro α V tyName name variants p visitor
    exact ⟨rfl, rfl, rfl, rfl, rfl, rfl, rfl⟩

end MatchitSerde
